import Mathlib

/-!
Verification development for `main.js` of the Onfix landing page.

The file shallowly embeds the script's behaviour:

* the fragment loader (`loadSection`, `loadAllSectionsSequentially`) is
  modelled as a state-passing function over a document (a map from element
  ids to container contents) that also emits a trace of events; `async`
  and `await` in the source serialise the loop, so the loader is exactly
  the sequential composition captured here, independent of fetch latency;
* name resolution of the bare calls inside `initInteractions` is modelled
  explicitly (`runCalls`), since the source calls an identifier that is
  never defined;
* the navbar scroll handler, the guarded setup routines, the lazy-image
  scan and the two form-submission handlers are modelled directly;
* the JavaScript builtins the handlers use (`encodeURIComponent`,
  `String.prototype.trim`) are reimplemented faithfully, and a single-pass
  percent-decoder (for ASCII payloads) is provided to state properties
  about the generated links.
-/

/- ======================  Fragment loader  ====================== -/

/-- Result of a `fetch`: either a response with an HTTP status and a body,
or a transport-level failure (the promise rejects). -/
inductive FetchResult where
  | response (status : Nat) (body : String)
  | transportError (msg : String)
deriving DecidableEq

/-- A fetch environment: what the network returns for each path. -/
abbrev Fetch := String → FetchResult

/-- The `res.ok` predicate of the Fetch API: status in the range 200–299. -/
def resOk (status : Nat) : Bool := 200 ≤ status && status < 300

/-- Whether a `FetchResult` counts as a failure for `loadSection`:
a non-success status makes the handler throw, and a transport error is
already a rejection. -/
def fetchFailed : FetchResult → Bool
  | FetchResult.response st _ => !resOk st
  | FetchResult.transportError _ => true

/-- One entry of the `sections` manifest of `main.js`. -/
structure SectionDesc where
  id : String
  path : String
deriving DecidableEq

/-- The `sections` constant of `main.js`, transcribed verbatim. -/
def sections : List SectionDesc :=
  [⟨"section-navbar", "sections/navbar.html"⟩,
   ⟨"section-hero", "sections/hero.html"⟩,
   ⟨"section-services", "sections/services.html"⟩,
   ⟨"section-portfolio", "sections/portfolio.html"⟩,
   ⟨"section-ig", "sections/ig.html"⟩,
   ⟨"section-pesan", "sections/pesan.html"⟩,
   ⟨"section-cta", "sections/cta.html"⟩,
   ⟨"section-footer", "sections/footer.html"⟩]

/-- The document, restricted to what the loader touches: a map from element
ids to the `innerHTML` of the container with that id (`none` when no such
element exists). -/
abbrev Doc := String → Option String

/-- Model of `document.getElementById` for container lookup. -/
def getElementById (doc : Doc) (i : String) : Option String := doc i

/-- Model of assigning `container.innerHTML`. -/
def setInnerHTML (doc : Doc) (i : String) (html : String) : Doc :=
  fun j => if j = i then some html else doc j

/-- Observable events of the loader, in program order. -/
inductive Event where
  | fetchStart (path : String)
  | fetchDone (path : String)
  | fetchFail (path : String)
  | logError (path : String)
  | warnMissing (id : String)
  | insert (id : String) (content : String)
  | initCalled
deriving DecidableEq

/-- The inline failure notice `loadSection` writes into the container,
transcribed from the template literal in the `catch` branch. -/
def failNotice (path : String) : String :=
  "<div class=\"container py-4\"><p class=\"text-muted\">Failed to load " ++
    path ++ "</p></div>"

/-- Model of `loadSection(targetId, path)`: fetch, check `res.ok`, insert
the body (or, in the `catch` branch, the failure notice) into the target
container when it exists.  Returns the updated document and the emitted
event trace.  The function never throws: the `try`/`catch` swallows both
the non-ok throw and transport errors. -/
def loadSection (fetch : Fetch) (doc : Doc) (targetId path : String) :
    Doc × List Event :=
  match fetch path with
  | FetchResult.response st body =>
    if resOk st then
      match getElementById doc targetId with
      | some _ =>
          (setInnerHTML doc targetId body,
           [Event.fetchStart path, Event.fetchDone path, Event.insert targetId body])
      | none =>
          (doc, [Event.fetchStart path, Event.fetchDone path, Event.warnMissing targetId])
    else
      match getElementById doc targetId with
      | some _ =>
          (setInnerHTML doc targetId (failNotice path),
           [Event.fetchStart path, Event.fetchDone path, Event.logError path,
            Event.insert targetId (failNotice path)])
      | none =>
          (doc, [Event.fetchStart path, Event.fetchDone path, Event.logError path])
  | FetchResult.transportError _ =>
      match getElementById doc targetId with
      | some _ =>
          (setInnerHTML doc targetId (failNotice path),
           [Event.fetchStart path, Event.fetchFail path, Event.logError path,
            Event.insert targetId (failNotice path)])
      | none =>
          (doc, [Event.fetchStart path, Event.fetchFail path, Event.logError path])

/-- The content a descriptor's container ends up holding after its own
load step: the body on success, the failure notice otherwise. -/
def sectionOutcome (fetch : Fetch) (s : SectionDesc) : String :=
  match fetch s.path with
  | FetchResult.response st body => if resOk st then body else failNotice s.path
  | FetchResult.transportError _ => failNotice s.path

/-- The event block one descriptor contributes when its container exists. -/
def sectionTrace (fetch : Fetch) (s : SectionDesc) : List Event :=
  match fetch s.path with
  | FetchResult.response st body =>
    if resOk st then
      [Event.fetchStart s.path, Event.fetchDone s.path, Event.insert s.id body]
    else
      [Event.fetchStart s.path, Event.fetchDone s.path, Event.logError s.path,
       Event.insert s.id (failNotice s.path)]
  | FetchResult.transportError _ =>
      [Event.fetchStart s.path, Event.fetchFail s.path, Event.logError s.path,
       Event.insert s.id (failNotice s.path)]

/-- The `for (const s of sections) await loadSection(...)` loop, generic in
the descriptor list: each descriptor's load completes (document update and
all) before the next one starts. -/
def loadAllAux (fetch : Fetch) : List SectionDesc → Doc → Doc × List Event
  | [], doc => (doc, [])
  | s :: rest, doc =>
    let r1 := loadSection fetch doc s.id s.path
    let r2 := loadAllAux fetch rest r1.1
    (r2.1, r1.2 ++ r2.2)

/-- Model of `loadAllSectionsSequentially`: run the loop over the manifest,
then call `initInteractions` (recorded as the final `initCalled` event). -/
def loadAllSectionsSequentially (fetch : Fetch) (doc : Doc) : Doc × List Event :=
  let r := loadAllAux fetch sections doc
  (r.1, r.2 ++ [Event.initCalled])

/-- Ids of the containers filled, in the order the trace filled them. -/
def insertedIds (tr : List Event) : List String :=
  tr.filterMap fun e =>
    match e with
    | Event.insert i _ => some i
    | _ => none

/-- Recogniser for the initialization event. -/
def isInitCalled : Event → Bool
  | Event.initCalled => true
  | _ => false

/-- Number of times the page-initialization step is invoked in a trace. -/
def initEventCount (tr : List Event) : Nat := tr.countP isInitCalled

/- ======================  initInteractions call resolution  ====================== -/

/-- JavaScript runtime errors relevant here. -/
inductive JsError where
  | referenceError (name : String)
  | typeError (msg : String)
deriving DecidableEq

/-- The function names bound at the top level of `main.js`: the eleven
`function` declarations.  (`observeLazy` becomes a `window` property only
when `initLazyLoader` runs; it is never called as a bare identifier
without a guard, so it is not relevant to bare-call resolution below.) -/
def definedTopLevel : List String :=
  ["loadSection", "loadAllSectionsSequentially", "initInteractions", "setYear",
   "initLazyLoader", "initRevealOnScroll", "initHeroInteractions",
   "initServicesScroller", "initPortfolioLightbox", "initContactForm",
   "initOrderForm"]

/-- The bare identifiers `initInteractions` calls, in source order.  The
trailing `if (window.observeLazy) window.observeLazy()` is a guarded
property access and cannot raise a ReferenceError, so it is omitted. -/
def initInteractionsCallees : List String :=
  ["setYear", "initLazyLoader", "initRevealOnScroll", "initNavScroll",
   "initHeroInteractions", "initServicesScroller", "initPortfolioLightbox",
   "initContactForm", "initOrderForm"]

/-- Model of running a sequence of bare calls: an identifier that is not
bound raises a ReferenceError and aborts the sequence.  Returns the calls
that actually ran, and the error if one was raised. -/
def runCalls (defined : List String) : List String → List String × Option JsError
  | [] => ([], none)
  | f :: rest =>
    if defined.contains f then
      let r := runCalls defined rest
      (f :: r.1, r.2)
    else ([], some (JsError.referenceError f))

/- ======================  Navbar scroll handler  ====================== -/

/-- The `threshold` constant of the DOMContentLoaded navbar listener. -/
def threshold : Nat := 50

/-- Model of `classList.add`: appends the token when absent. -/
def classAdd (cls : List String) (c : String) : List String :=
  if c ∈ cls then cls else cls ++ [c]

/-- Model of `classList.remove`: drops every occurrence of the token. -/
def classRemove (cls : List String) (c : String) : List String :=
  cls.filter (fun x => x ≠ c)

/-- Model of the `onScroll` closure of the navbar listener.  `navbar` is
the result of `document.getElementById("topNav")` (its class list when the
element exists).  When the element is missing, `navbar` is `null` and the
`navbar.classList` access throws a TypeError — there is no null check in
the source. -/
def onScroll (navbar : Option (List String)) (scrollY : Nat) :
    Except JsError (Option (List String)) :=
  match navbar with
  | none =>
      Except.error (JsError.typeError "Cannot read properties of null (reading classList)")
  | some cls =>
      Except.ok (some (if threshold < scrollY then classAdd cls "scrolled"
                       else classRemove cls "scrolled"))

/-- Outcome of a guarded setup routine. -/
inductive SetupResult where
  | skipped
  | wired
deriving DecidableEq

/-- Model of `initServicesScroller`: returns immediately when the
`.services-scroll` query finds nothing, otherwise wires the scroller. -/
def initServicesScroller (scrollWrapPresent : Bool) : Except JsError SetupResult :=
  if scrollWrapPresent then Except.ok SetupResult.wired
  else Except.ok SetupResult.skipped

/-- Model of `initPortfolioLightbox`: returns immediately when `#pfLightbox`
is missing, otherwise wires the lightbox. -/
def initPortfolioLightbox (lightboxPresent : Bool) : Except JsError SetupResult :=
  if lightboxPresent then Except.ok SetupResult.wired
  else Except.ok SetupResult.skipped

/-- Model of `initContactForm`: returns immediately when `#contactForm` is
missing, otherwise wires the floating labels. -/
def initContactForm (contactFormPresent : Bool) : Except JsError SetupResult :=
  if contactFormPresent then Except.ok SetupResult.wired
  else Except.ok SetupResult.skipped

/- ======================  Lazy images  ====================== -/

/-- An `img` element as the lazy loader sees it: whether it carries the
`lazy` class, whether it carries the `loaded` class, its `data-src`
attribute and its current `src`. -/
structure Img where
  lazy : Bool
  loaded : Bool
  dataSrc : Option String
  src : String
deriving DecidableEq

/-- The selector `img.lazy:not(.loaded)` as a predicate. -/
def lazyNotLoaded (im : Img) : Bool := im.lazy && !im.loaded

/-- Model of `window.observeLazy`: the images (in document order) handed to
`io.observe` by one invocation of the rescan. -/
def observeLazy (imgs : List Img) : List Img := imgs.filter lazyNotLoaded

/-- Model of the IntersectionObserver callback's effect on one
intersecting image: swap in `data-src` when present, and mark it loaded
(the element is also unobserved; `data-srcset` handling is analogous and
omitted). -/
def ioCallback (im : Img) : Img :=
  { im with src := im.dataSrc.getD im.src, loaded := true }

/- ======================  JS string builtins  ====================== -/

/-- Characters `encodeURIComponent` leaves unescaped, by code point:
ASCII letters, digits, and `- _ . ! ~ * ( )` together with the apostrophe
(code 39). -/
def isUnreservedCode (n : Nat) : Bool :=
  (65 ≤ n && n ≤ 90) || (97 ≤ n && n ≤ 122) || (48 ≤ n && n ≤ 57) ||
  n = 45 || n = 95 || n = 46 || n = 33 || n = 126 || n = 42 || n = 39 ||
  n = 40 || n = 41

/-- UTF-8 encoding of one code point, as byte values. -/
def utf8Bytes (c : Char) : List Nat :=
  let n := c.toNat
  if n < 128 then [n]
  else if n < 2048 then [192 + n / 64, 128 + n % 64]
  else if n < 65536 then [224 + n / 4096, 128 + (n / 64) % 64, 128 + n % 64]
  else [240 + n / 262144, 128 + (n / 4096) % 64, 128 + (n / 64) % 64, 128 + n % 64]

/-- Uppercase hexadecimal digit for a value below 16. -/
def hexDigitChar (n : Nat) : Char :=
  if n < 10 then Char.ofNat (48 + n) else Char.ofNat (55 + n)

/-- Percent-escape of one byte: `%` followed by two uppercase hex digits. -/
def pctByte (b : Nat) : List Char :=
  [Char.ofNat 37, hexDigitChar (b / 16), hexDigitChar (b % 16)]

/-- Encoding of one character under `encodeURIComponent`. -/
def encodeChar (c : Char) : List Char :=
  if isUnreservedCode c.toNat then [c]
  else (utf8Bytes c).foldr (fun b acc => pctByte b ++ acc) []

/-- The JavaScript builtin `encodeURIComponent`. -/
def encodeURIComponent (s : String) : String :=
  String.mk (s.data.foldr (fun c acc => encodeChar c ++ acc) [])

/-- Value of a hexadecimal digit character, if it is one. -/
def hexVal (c : Char) : Option Nat :=
  let n := c.toNat
  if 48 ≤ n && n ≤ 57 then some (n - 48)
  else if 65 ≤ n && n ≤ 70 then some (n - 55)
  else if 97 ≤ n && n ≤ 102 then some (n - 87)
  else none

/-- Single-pass percent-decoding over characters, for ASCII payloads:
`%HH` becomes the character with code `HH` (refused above 127, where UTF-8
reassembly would be needed); other characters pass through. -/
def percentDecodeChars : List Char → Option (List Char)
  | [] => some []
  | c :: rest =>
    if c.toNat = 37 then
      match rest with
      | h1 :: h2 :: rest2 =>
        match hexVal h1, hexVal h2 with
        | some a, some b =>
          let byte := 16 * a + b
          if byte < 128 then
            match percentDecodeChars rest2 with
            | some out => some (Char.ofNat byte :: out)
            | none => none
          else none
        | _, _ => none
      | _ => none
    else
      match percentDecodeChars rest with
      | some out => some (c :: out)
      | none => none

/-- Single-pass percent-decoding of a string (ASCII payloads). -/
def percentDecode (s : String) : Option String :=
  (percentDecodeChars s.data).map String.mk

/-- Whitespace per `String.prototype.trim` (the code points occurring in
practice: tab, LF, VT, FF, CR, space). -/
def isJsWhitespace (c : Char) : Bool :=
  c.toNat = 9 || c.toNat = 10 || c.toNat = 11 || c.toNat = 12 || c.toNat = 13 ||
  c.toNat = 32

/-- The JavaScript builtin `String.prototype.trim`: strip leading and
trailing whitespace. -/
def jsTrim (s : String) : String :=
  String.mk (((s.data.dropWhile isJsWhitespace).reverse.dropWhile isJsWhitespace).reverse)

/- ======================  Form submission handlers  ====================== -/

/-- Effects a submit handler performs, in order. -/
inductive SubmitAction where
  | preventDefault
  | openTab (url : String)
deriving DecidableEq, BEq

/-- The deep link `https://wa.me/6281931786798?text=` followed by the
percent-encoded message, as built in both handlers. -/
def waLink (text : String) : String :=
  "https://wa.me/6281931786798?text=" ++ text

/-- The order-form template literal (real newlines via `\n`). -/
def orderMessage (name service phone notes : String) : String :=
  "Halo OnFix, saya *" ++ name ++ "* ingin memesan layanan: *" ++ service ++
  "*.\nNoWA: " ++ phone ++ "\nCatatan: " ++ notes

/-- The contact-form template literal: the separators are the six literal
characters `%0A` (not newlines), and an empty `service` value falls back
to `-` via `service || '-'`. -/
def contactMessage (name phone service msg : String) : String :=
  "Halo OnFix, saya " ++ name ++ ".%0AIngin layanan: " ++
  (if service = "" then "-" else service) ++ "%0A" ++ msg ++
  "%0AHubungi saya di: " ++ phone

/-- The named order-form fields as `FormData.get` sees them: `none` when no
control with that name exists. -/
structure OrderFields where
  name : Option String
  service : Option String
  phone : Option String
  notes : Option String
deriving DecidableEq

/-- The contact-form controls as `querySelector('#...')?.value` sees them:
`none` when the element is missing. -/
structure ContactFields where
  name : Option String
  phone : Option String
  service : Option String
  message : Option String
deriving DecidableEq

/-- Model of the `#orderForm` submit handler: prevent the default, read the
four fields with `|| ''` defaulting, build the template, encode it and open
the deep link in a new tab. -/
def orderSubmit (f : OrderFields) : List SubmitAction :=
  [SubmitAction.preventDefault,
   SubmitAction.openTab (waLink (encodeURIComponent (orderMessage
     (f.name.getD "") (f.service.getD "") (f.phone.getD "") (f.notes.getD ""))))]

/-- Model of the `#contactForm` submit handler: prevent the default, read
the four controls (`?.value?.trim() ?? ''`, the service value untrimmed),
build the template, encode it and open the deep link in a new tab. -/
def contactSubmit (f : ContactFields) : List SubmitAction :=
  [SubmitAction.preventDefault,
   SubmitAction.openTab (waLink (encodeURIComponent (contactMessage
     ((f.name.map jsTrim).getD "") ((f.phone.map jsTrim).getD "")
     (f.service.getD "") ((f.message.map jsTrim).getD ""))))]

/-- The URL a handler run opens (the first `openTab` action, if any). -/
def openedUrl (acts : List SubmitAction) : Option String :=
  (acts.filterMap fun a =>
    match a with
    | SubmitAction.openTab u => some u
    | _ => none).head?

/-- Whether the browser performs the default form navigation after the
handler ran: it does exactly when no `preventDefault` was issued. -/
def defaultNavigates (acts : List SubmitAction) : Bool :=
  !(acts.contains SubmitAction.preventDefault)

/-- Definition following the claim's words (C7): both templates with every
missing or empty field substituted as the empty string — in particular the
contact-form service slot holds the raw field value, with no `-` fallback.
To be compared against `contactMessage`, which the source defines. -/
def contactMessageAsClaimed (name phone service msg : String) : String :=
  "Halo OnFix, saya " ++ name ++ ".%0AIngin layanan: " ++ service ++
  "%0A" ++ msg ++ "%0AHubungi saya di: " ++ phone

/- ======================  Loader lemmas  ====================== -/

theorem loadSection_fst (fetch : Fetch) (doc : Doc) (s : SectionDesc) :
    (loadSection fetch doc s.id s.path).1 =
      match doc s.id with
      | some _ => setInnerHTML doc s.id (sectionOutcome fetch s)
      | none => doc := by
  unfold loadSection sectionOutcome getElementById
  rcases hfp : fetch s.path with ⟨st, body⟩ | m
  · by_cases hok : resOk st = true
    · simp only [hok, if_true]
      cases doc s.id <;> simp
    · simp only [hok, Bool.false_eq_true, if_false]
      cases doc s.id <;> simp
  · cases doc s.id <;> simp

theorem loadSection_snd (fetch : Fetch) (doc : Doc) (s : SectionDesc)
    (h : (doc s.id).isSome = true) :
    (loadSection fetch doc s.id s.path).2 = sectionTrace fetch s := by
  rcases hdi : doc s.id with _ | v
  · rw [hdi] at h; cases h
  · unfold loadSection sectionTrace getElementById
    rcases hfp : fetch s.path with ⟨st, body⟩ | m
    · by_cases hok : resOk st = true
      · simp only [hok, if_true, hdi]
      · simp only [hok, Bool.false_eq_true, if_false, hdi]
    · simp only [hdi]

theorem loadSection_preserves (fetch : Fetch) (doc : Doc) (s : SectionDesc)
    (j : String) (h : (doc j).isSome = true) :
    ((loadSection fetch doc s.id s.path).1 j).isSome = true := by
  rw [loadSection_fst]
  cases hdi : doc s.id
  · simpa using h
  · by_cases hj : j = s.id <;> simp [setInnerHTML, hj, h]

theorem loadSection_other (fetch : Fetch) (doc : Doc) (s : SectionDesc)
    (j : String) (hj : j ≠ s.id) :
    (loadSection fetch doc s.id s.path).1 j = doc j := by
  rw [loadSection_fst]
  cases hdi : doc s.id <;> simp [setInnerHTML, hj]

theorem insertedIds_append (a b : List Event) :
    insertedIds (a ++ b) = insertedIds a ++ insertedIds b := by
  unfold insertedIds
  exact List.filterMap_append a b _

theorem insertedIds_sectionTrace (fetch : Fetch) (s : SectionDesc) :
    insertedIds (sectionTrace fetch s) = [s.id] := by
  unfold sectionTrace insertedIds
  rcases hfp : fetch s.path with ⟨st, body⟩ | m
  · by_cases hok : resOk st = true <;> simp [hok]
  · simp

theorem sectionTrace_ends (fetch : Fetch) (s : SectionDesc) :
    (sectionTrace fetch s).head? = some (Event.fetchStart s.path) ∧
    (sectionTrace fetch s).getLast? = some (Event.insert s.id (sectionOutcome fetch s)) := by
  unfold sectionTrace sectionOutcome
  rcases hfp : fetch s.path with ⟨st, body⟩ | m
  · by_cases hok : resOk st = true <;> simp [hok, List.getLast?]
  · simp [List.getLast?]

theorem loadAllAux_trace (fetch : Fetch) (ss : List SectionDesc) (doc : Doc)
    (hall : ∀ s ∈ ss, (doc s.id).isSome = true) :
    (loadAllAux fetch ss doc).2 = (ss.map (sectionTrace fetch)).flatten := by
  induction ss generalizing doc with
  | nil => rfl
  | cons s rest ih =>
    have hs : (doc s.id).isSome = true := hall s (List.mem_cons_self s rest)
    have hrest : ∀ t ∈ rest, (((loadSection fetch doc s.id s.path).1) t.id).isSome = true :=
      fun t ht => loadSection_preserves fetch doc s t.id (hall t (List.mem_cons_of_mem s ht))
    simp only [loadAllAux, List.map_cons, List.flatten_cons]
    rw [loadSection_snd fetch doc s hs, ih _ hrest]

theorem insertedIds_blocks (fetch : Fetch) (ss : List SectionDesc) :
    insertedIds ((ss.map (sectionTrace fetch)).flatten) = ss.map SectionDesc.id := by
  induction ss with
  | nil => rfl
  | cons s rest ih =>
    simp only [List.map_cons, List.flatten_cons]
    rw [insertedIds_append, insertedIds_sectionTrace, ih]
    rfl

theorem loadSection_no_init (fetch : Fetch) (doc : Doc) (i p : String) :
    ((loadSection fetch doc i p).2).countP isInitCalled = 0 := by
  unfold loadSection getElementById
  rcases hfp : fetch p with ⟨st, body⟩ | m
  · by_cases hok : resOk st = true
    · simp only [hok, if_true]
      cases doc i <;> simp [isInitCalled]
    · simp only [hok, Bool.false_eq_true, if_false]
      cases doc i <;> simp [isInitCalled]
  · cases doc i <;> simp [isInitCalled]

theorem loadAllAux_no_init (fetch : Fetch) (ss : List SectionDesc) (doc : Doc) :
    ((loadAllAux fetch ss doc).2).countP isInitCalled = 0 := by
  induction ss generalizing doc with
  | nil => rfl
  | cons s rest ih =>
    simp only [loadAllAux, List.countP_append]
    rw [loadSection_no_init, ih]

theorem loadAllAux_untouched (fetch : Fetch) (ss : List SectionDesc) (doc : Doc)
    (j : String) (hj : j ∉ ss.map SectionDesc.id) :
    (loadAllAux fetch ss doc).1 j = doc j := by
  induction ss generalizing doc with
  | nil => rfl
  | cons s rest ih =>
    simp only [List.map_cons, List.mem_cons, not_or] at hj
    simp only [loadAllAux]
    rw [ih _ hj.2, loadSection_other fetch doc s j hj.1]

theorem loadAllAux_final (fetch : Fetch) (ss : List SectionDesc) (doc : Doc)
    (hnd : (ss.map SectionDesc.id).Nodup)
    (hall : ∀ s ∈ ss, (doc s.id).isSome = true) :
    ∀ s ∈ ss, (loadAllAux fetch ss doc).1 s.id = some (sectionOutcome fetch s) := by
  induction ss generalizing doc with
  | nil => intro s hs; cases hs
  | cons hd rest ih =>
    intro s hs
    simp only [List.map_cons, List.nodup_cons] at hnd
    rcases List.mem_cons.mp hs with rfl | hs'
    · simp only [loadAllAux]
      rw [loadAllAux_untouched fetch rest _ s.id hnd.1, loadSection_fst]
      rcases hdi : doc s.id with _ | v
      · have := hall s (List.mem_cons_self s rest)
        rw [hdi] at this; cases this
      · simp [setInnerHTML]
    · simp only [loadAllAux]
      exact ih _ hnd.2
        (fun t ht => loadSection_preserves fetch doc hd t.id (hall t (List.mem_cons_of_mem hd ht)))
        s hs'

/- ======================  Claim theorems  ====================== -/

/-- Claim C1.  The trace of `loadAllSectionsSequentially` contains the
page-initialization invocation exactly once, for every fetch outcome and
document — but the initialization step itself does NOT run every setup
routine: `initInteractions` calls the bare identifier `initNavScroll`,
which no declaration in `main.js` binds, so after `setYear`,
`initLazyLoader` and `initRevealOnScroll` a ReferenceError is raised and
the remaining routines never run. -/
theorem initInteractions_referenceError :
    (∀ (fetch : Fetch) (doc : Doc),
        initEventCount (loadAllSectionsSequentially fetch doc).2 = 1) ∧
    runCalls definedTopLevel initInteractionsCallees =
      (["setYear", "initLazyLoader", "initRevealOnScroll"],
       some (JsError.referenceError "initNavScroll")) := by
  constructor
  · intro fetch doc
    unfold initEventCount loadAllSectionsSequentially
    rw [List.countP_append, loadAllAux_no_init]
    rfl
  · rfl

/-- Claim C2.  For every descriptor list whose containers all exist, the
loader's trace is exactly the concatenation of the per-descriptor blocks in
list order — each block begins with its own fetch and ends with its own
insertion, so a fetch is only issued after the previous container was
filled — and hence the containers are filled in descriptor order,
independently of fetch latencies (which the awaited sequential loop makes
unobservable). -/
theorem loader_inserts_in_descriptor_order (fetch : Fetch)
    (ss : List SectionDesc) (doc : Doc)
    (hall : ∀ s ∈ ss, (doc s.id).isSome = true) :
    (loadAllAux fetch ss doc).2 = (ss.map (sectionTrace fetch)).flatten ∧
    insertedIds (loadAllAux fetch ss doc).2 = ss.map SectionDesc.id ∧
    ∀ s ∈ ss, (sectionTrace fetch s).head? = some (Event.fetchStart s.path) ∧
      (sectionTrace fetch s).getLast? =
        some (Event.insert s.id (sectionOutcome fetch s)) := by
  have htr := loadAllAux_trace fetch ss doc hall
  refine ⟨htr, ?_, fun s _ => sectionTrace_ends fetch s⟩
  rw [htr, insertedIds_blocks]

/-- Witness for C2 at a concrete fetch environment and document. -/
theorem loader_inserts_in_descriptor_order_witness :
    insertedIds (loadAllAux (fun p => FetchResult.response 200 p) sections
        (fun _ => some "")).2 = sections.map SectionDesc.id :=
  (loader_inserts_in_descriptor_order (fun p => FetchResult.response 200 p)
    sections (fun _ => some "") (fun _ _ => rfl)).2.1

/-- Claim C3.  When one descriptor's fetch fails (non-ok status or
transport error), its container ends up holding the failure notice (which
names the resource path), every other descriptor still ends up with its own
outcome (in particular every successful one holds its fetched body), and
the trace still ends with the initialization call. -/
theorem fetch_failure_isolated (fetch : Fetch) (doc : Doc) (s : SectionDesc)
    (hs : s ∈ sections) (hall : ∀ t ∈ sections, (doc t.id).isSome = true)
    (hfail : fetchFailed (fetch s.path) = true) :
    (loadAllSectionsSequentially fetch doc).1 s.id = some (failNotice s.path) ∧
    (∃ pre post, failNotice s.path = pre ++ s.path ++ post) ∧
    (∀ t ∈ sections, (loadAllSectionsSequentially fetch doc).1 t.id =
        some (sectionOutcome fetch t)) ∧
    (loadAllSectionsSequentially fetch doc).2.getLast? = some Event.initCalled := by
  have hnd : (sections.map SectionDesc.id).Nodup := by decide
  have hfinal := loadAllAux_final fetch sections doc hnd hall
  have hkey : ∀ t ∈ sections, (loadAllSectionsSequentially fetch doc).1 t.id =
      some (sectionOutcome fetch t) := fun t ht => hfinal t ht
  refine ⟨?_, ⟨"<div class=\"container py-4\"><p class=\"text-muted\">Failed to load ",
      "</p></div>", rfl⟩, hkey, ?_⟩
  · have ho : sectionOutcome fetch s = failNotice s.path := by
      unfold sectionOutcome
      unfold fetchFailed at hfail
      rcases hfp : fetch s.path with ⟨st, body⟩ | m
      · rw [hfp] at hfail
        simp only [Bool.not_eq_true'] at hfail
        simp [hfail]
      · rfl
    rw [hkey s hs, ho]
  · show ((loadAllAux fetch sections doc).2 ++ [Event.initCalled]).getLast? =
      some Event.initCalled
    exact List.getLast?_concat _

/-- Witness for C3: the hero fetch fails with a transport error while every
other fetch succeeds; the hero container holds the failure notice. -/
theorem fetch_failure_isolated_witness :
    (loadAllSectionsSequentially
      (fun p => if p = "sections/hero.html" then FetchResult.transportError "down"
                else FetchResult.response 200 p)
      (fun _ => some "")).1 "section-hero" = some (failNotice "sections/hero.html") :=
  (fetch_failure_isolated
    (fun p => if p = "sections/hero.html" then FetchResult.transportError "down"
              else FetchResult.response 200 p)
    (fun _ => some "") ⟨"section-hero", "sections/hero.html"⟩
    (by decide) (fun _ _ => rfl) (by decide)).1

/-- Claim C4.  The guarded setup routines do skip silently when their
target elements are missing, but the navbar scroll handler does not: it is
wired at DOMContentLoaded, reads `getElementById("topNav")` without a null
check, and its immediate first run throws a TypeError whenever the navbar
element is not (yet) in the document — at every scroll position. -/
theorem missing_navbar_throws_typeError :
    (∀ y : Nat, onScroll none y =
        Except.error (JsError.typeError
          "Cannot read properties of null (reading classList)")) ∧
    initServicesScroller false = Except.ok SetupResult.skipped ∧
    initPortfolioLightbox false = Except.ok SetupResult.skipped ∧
    initContactForm false = Except.ok SetupResult.skipped :=
  ⟨fun _ => rfl, rfl, rfl, rfl⟩

/-- Claim C5.  When the navbar exists, each run of the scroll handler
succeeds and leaves the `scrolled` class present exactly when the scroll
offset exceeds the threshold 50 — so the class is added above the threshold
and removed at or below it, in both directions, whatever the previous class
list was. -/
theorem navbar_scrolled_class_iff_threshold (cls : List String) (y : Nat) :
    ∃ cls2, onScroll (some cls) y = Except.ok (some cls2) ∧
      (("scrolled" ∈ cls2) ↔ threshold < y) := by
  by_cases hy : threshold < y
  · refine ⟨classAdd cls "scrolled", by simp [onScroll, hy], ?_⟩
    unfold classAdd
    by_cases hmem : "scrolled" ∈ cls <;> simp [hmem, hy]
  · refine ⟨classRemove cls "scrolled", by simp [onScroll, hy], ?_⟩
    unfold classRemove
    simp [List.mem_filter, hy]

set_option maxRecDepth 40000

/-- Claim C6.  Submitting the order form with name Dina, service
AC Cleaning, phone 0812xxxx and notes pagi opens exactly the fixed
recipient link with the percent-encoded template, and percent-decoding the
text query parameter gives back the fixed template with precisely those
four values substituted. -/
theorem order_link_decodes_to_template :
    openedUrl (orderSubmit ⟨some "Dina", some "AC Cleaning", some "0812xxxx", some "pagi"⟩) =
      some (waLink (encodeURIComponent
        (orderMessage "Dina" "AC Cleaning" "0812xxxx" "pagi"))) ∧
    waLink (encodeURIComponent (orderMessage "Dina" "AC Cleaning" "0812xxxx" "pagi")) =
      "https://wa.me/6281931786798?text=" ++
        "Halo%20OnFix%2C%20saya%20*Dina*%20ingin%20memesan%20layanan%3A%20*AC%20Cleaning*.%0ANoWA%3A%200812xxxx%0ACatatan%3A%20pagi" ∧
    percentDecode (encodeURIComponent (orderMessage "Dina" "AC Cleaning" "0812xxxx" "pagi")) =
      some "Halo OnFix, saya *Dina* ingin memesan layanan: *AC Cleaning*.\nNoWA: 0812xxxx\nCatatan: pagi" :=
  ⟨rfl, by decide, by decide⟩

/-- Counterexample to claim C7 as stated: with every contact-form control
missing, the handler still opens a link, but the message it interpolates is
NOT the template with empty strings substituted everywhere — the service
slot receives the fallback `-`, so the built message differs from the
message the claim describes. -/
theorem contact_empty_service_not_empty_string :
    openedUrl (contactSubmit ⟨none, none, none, none⟩) =
      some (waLink (encodeURIComponent (contactMessage "" "" "" ""))) ∧
    contactMessage "" "" "" "" =
      "Halo OnFix, saya .%0AIngin layanan: -%0A%0AHubungi saya di: " ∧
    contactMessage "" "" "" "" ≠ contactMessageAsClaimed "" "" "" "" :=
  ⟨rfl, by decide, by decide⟩

/-- Claim C7, amended.  For both forms a missing field is equivalent to an
empty-string field (the handlers default missing values to the empty
string), and an empty field is interpolated as the empty string into the
templates — with the single exception of the contact form's service slot,
which the template renders as `-` when the value is empty. -/
theorem form_fields_default_to_empty :
    (∀ f : OrderFields, orderSubmit f =
        orderSubmit ⟨some (f.name.getD ""), some (f.service.getD ""),
                     some (f.phone.getD ""), some (f.notes.getD "")⟩) ∧
    (∀ g : ContactFields, contactSubmit g =
        contactSubmit ⟨some (g.name.getD ""), some (g.phone.getD ""),
                       some (g.service.getD ""), some (g.message.getD "")⟩) ∧
    orderMessage "" "" "" "" =
      "Halo OnFix, saya ** ingin memesan layanan: **.\nNoWA: \nCatatan: " ∧
    contactMessage "" "" "" "" =
      "Halo OnFix, saya .%0AIngin layanan: -%0A%0AHubungi saya di: " := by
  refine ⟨?_, ?_, by decide, by decide⟩
  · rintro ⟨n, s, p, o⟩
    cases n <;> cases s <;> cases p <;> cases o <;> rfl
  · rintro ⟨n, p, s, m⟩
    cases n <;> cases p <;> cases s <;> cases m <;> rfl

/-- Claim C8.  For every combination of field values, both submit handlers
issue `preventDefault` as their very first action, and consequently the
browser never performs the default form navigation. -/
theorem submit_prevents_default_first (f : OrderFields) (g : ContactFields) :
    (orderSubmit f).head? = some SubmitAction.preventDefault ∧
    (contactSubmit g).head? = some SubmitAction.preventDefault ∧
    defaultNavigates (orderSubmit f) = false ∧
    defaultNavigates (contactSubmit g) = false :=
  ⟨rfl, rfl, rfl, rfl⟩

/-- Claim C9.  Every image a rescan hands to the observer carries the
`lazy` class and not the `loaded` class — an already-loaded image is never
observed again — and after the observer callback has processed a batch of
images (marking each loaded), a further rescan of them observes nothing. -/
theorem observeLazy_only_unloaded :
    (∀ imgs : List Img, ∀ im ∈ observeLazy imgs,
        im.lazy = true ∧ im.loaded = false) ∧
    (∀ imgs : List Img, observeLazy (imgs.map ioCallback) = []) := by
  constructor
  · intro imgs im him
    have h := List.of_mem_filter him
    unfold lazyNotLoaded at h
    simp only [Bool.and_eq_true, Bool.not_eq_true'] at h
    exact h
  · intro imgs
    induction imgs with
    | nil => rfl
    | cons a l ih =>
      simp only [List.map_cons]
      unfold observeLazy at ih ⊢
      simp [List.filter_cons, lazyNotLoaded, ioCallback, ih]

/-- Witness for C9: a lazy, unloaded image is among the observed ones, and
the theorem yields its classes. -/
theorem observeLazy_only_unloaded_witness :
    (Img.mk true false none "").lazy = true ∧
    (Img.mk true false none "").loaded = false :=
  observeLazy_only_unloaded.1 [Img.mk true false none ""]
    (Img.mk true false none "") (by decide)

/-- Claim C10.  The contact handler's message carries the literal
characters `%0A` (and no newline), so the encoded text contains `%250A`
and one percent-decoding pass returns the message with `%0A` still
literal; the order template, by contrast, contains real newlines; and an
empty service value is rendered as `-`. -/
theorem contact_message_literal_percent0A :
    openedUrl (contactSubmit ⟨some "Ana", some "08", some "AC", some "hi"⟩) =
      some (waLink (encodeURIComponent (contactMessage "Ana" "08" "AC" "hi"))) ∧
    contactMessage "Ana" "08" "AC" "hi" =
      "Halo OnFix, saya Ana.%0AIngin layanan: AC%0Ahi%0AHubungi saya di: 08" ∧
    encodeURIComponent (contactMessage "Ana" "08" "AC" "hi") =
      "Halo%20OnFix%2C%20saya%20Ana.%250AIngin%20layanan%3A%20AC%250Ahi%250AHubungi%20saya%20di%3A%2008" ∧
    percentDecode (encodeURIComponent (contactMessage "Ana" "08" "AC" "hi")) =
      some (contactMessage "Ana" "08" "AC" "hi") ∧
    (contactMessage "Ana" "08" "AC" "hi").data.all (fun c => c.toNat != 10) = true ∧
    (orderMessage "Ana" "AC" "08" "hi").data.any (fun c => c.toNat == 10) = true ∧
    contactMessage "Ana" "08" "" "hi" =
      "Halo OnFix, saya Ana.%0AIngin layanan: -%0Ahi%0AHubungi saya di: 08" :=
  ⟨by decide, by decide, by decide, by decide, by decide, by decide, by decide⟩
